import Mathlib

/-!
Verification of the SQL-gateway service (`src/app.py`).

The development shallowly embeds the request-handling core of the service:
the query classifier, the row-cap and encoding logic (JSON and CSV), the
authentication dependency, the pooled-connection acquire/release lifecycle
of the `sqlquery` endpoint, and the temp-file-removal middleware.  Database
drivers, the HTTP server and the file system are modelled as oracles: a
record of outcomes (rows fetched, errors raised, temp-file path) supplied
to the pure handler function.
-/

namespace SqlGateway

/-! ## String helpers mirroring the Python primitives used by `app.py` -/

/-- Characters stripped by Python's `str.strip()` (ASCII whitespace). -/
def pyIsSpace (c : Char) : Bool :=
  c = ' ' || c = '\t' || c = '\n' || c = '\r' || c = '\x0b' || c = '\x0c'

/-- Python `str.strip()` on the character list: drop leading and trailing whitespace. -/
def pyStripList (l : List Char) : List Char :=
  ((l.dropWhile pyIsSpace).reverse.dropWhile pyIsSpace).reverse

/-- Python `s.strip()`. -/
def pyStrip (s : String) : String :=
  String.mk (pyStripList s.toList)

/-- Python `s.lower()` restricted to ASCII case mapping (the only case
mapping relevant to the keyword comparison and format names in the source). -/
def asciiLower (s : String) : String :=
  String.mk (s.toList.map Char.toLower)

/-- Tests whether the second list is an initial segment of the first (Python `startswith`). -/
def listIsStart : List Char → List Char → Bool
  | _, [] => true
  | [], _ :: _ => false
  | c :: cs, d :: ds => c = d && listIsStart cs ds

/-- Python `s.startswith(p)`. -/
def pyStartsWith (s p : String) : Bool :=
  listIsStart s.toList p.toList

/-- Helper for `str.partition(" ")`: split the character list at the first
space; `none` when there is no space. -/
def breakAtSpace : List Char → List Char × Option (List Char)
  | [] => ([], none)
  | c :: cs =>
    if c = ' ' then ([], some cs)
    else
      let r := breakAtSpace cs
      (c :: r.1, r.2)

/-- Python `s.partition(" ")`, returning (part before the first space,
part after it).  When no space occurs the second component is `""`,
matching `partition`'s `(s, "", "")` result. -/
def pyPartitionSpace (s : String) : String × String :=
  match breakAtSpace s.toList with
  | (pre, none) => (String.mk pre, "")
  | (pre, some post) => (String.mk pre, String.mk post)

/-- All characters of the string are ASCII (`str.isascii()`); Python's
`secrets.compare_digest` on `str` arguments requires this. -/
def isAsciiStr (s : String) : Bool :=
  s.toList.all (fun c => c.toNat < 128)

/-- Join a list of strings without separator. -/
def strJoin : List String → String
  | [] => ""
  | x :: r => x ++ strJoin r

/-- Join a list of strings with a separator between consecutive elements. -/
def joinWith (sep : String) : List String → String
  | [] => ""
  | [x] => x
  | x :: y :: rest => x ++ sep ++ joinWith sep (y :: rest)

/-- Decimal digits of `n` left-padded with zeros to width `w`
(Python `"%0*d"`), used by `isoformat`. -/
def natPad (w n : Nat) : String :=
  let s := toString n
  if s.length < w then String.mk (List.replicate (w - s.length) '0') ++ s
  else s

/-! ## Python scalar values appearing in result rows -/

/-- Python `datetime.date`. -/
structure PyDate where
  year : Nat
  month : Nat
  day : Nat

/-- Python `datetime.time`. -/
structure PyTime where
  hour : Nat
  minute : Nat
  second : Nat
  microsecond : Nat

/-- Python `datetime.datetime`. -/
structure PyDatetime where
  date : PyDate
  time : PyTime

/-- A database scalar as surfaced by the drivers: the kinds the service's
encoders treat specially, plus the natively JSON-serializable kinds and
`bytes` (which the JSON encoder rejects).  A `Decimal` is represented by
its signed coefficient and power-of-ten exponent. -/
inductive PyValue where
  | vNone
  | vBool (b : Bool)
  | vInt (i : Int)
  | vStr (s : String)
  | vDate (d : PyDate)
  | vDatetime (dt : PyDatetime)
  | vTime (t : PyTime)
  | vDecimal (m : Int) (e : Int)
  | vBytes (bs : List Nat)

/-- A result row: ordered column-name/value mapping (a Python dict). -/
abbrev Row := List (String × PyValue)

/-- Python `date.isoformat()`: `YYYY-MM-DD`. -/
def pyDateIso (d : PyDate) : String :=
  natPad 4 d.year ++ "-" ++ natPad 2 d.month ++ "-" ++ natPad 2 d.day

/-- Python `time.isoformat()`: `HH:MM:SS`, with `.ffffff` when microseconds are
non-zero. -/
def pyTimeIso (t : PyTime) : String :=
  natPad 2 t.hour ++ ":" ++ natPad 2 t.minute ++ ":" ++ natPad 2 t.second ++
    (if t.microsecond = 0 then "" else "." ++ natPad 6 t.microsecond)

/-- Python `datetime.isoformat()` (`T` separator). -/
def pyDatetimeIso (dt : PyDatetime) : String :=
  pyDateIso dt.date ++ "T" ++ pyTimeIso dt.time

/-- Python `str(datetime)` (space separator), used by the CSV writer. -/
def pyDatetimeStr (dt : PyDatetime) : String :=
  pyDateIso dt.date ++ " " ++ pyTimeIso dt.time

/-- Python `%+d` formatting of an integer (sign always printed). -/
def intSignedStr (i : Int) : String :=
  if i < 0 then toString i else "+" ++ toString i

/-- Python `str(Decimal)` for a decimal with coefficient `m` and exponent `e`,
following the fixed-point versus scientific placement rules of
`decimal.Decimal.__str__`. -/
def decimalStr (m : Int) (e : Int) : String :=
  let sign := if m < 0 then "-" else ""
  let digits := toString m.natAbs
  let len : Int := digits.length
  let leftdigits := e + len
  let dotplace := if e ≤ 0 ∧ leftdigits > -6 then leftdigits else 1
  let intpart :=
    if dotplace ≤ 0 then "0"
    else if dotplace ≥ len then digits ++ String.mk (List.replicate (dotplace - len).toNat '0')
    else String.mk (digits.toList.take dotplace.toNat)
  let fracpart :=
    if dotplace ≤ 0 then "." ++ String.mk (List.replicate (-dotplace).toNat '0') ++ digits
    else if dotplace ≥ len then ""
    else "." ++ String.mk (digits.toList.drop dotplace.toNat)
  let exppart := if leftdigits = dotplace then "" else "E" ++ intSignedStr (leftdigits - dotplace)
  sign ++ intpart ++ fracpart ++ exppart

/-- The exact rational value of a `Decimal`; `float(Decimal)` in the source
rounds this to the nearest IEEE double, an identity-preserving numeric
conversion whose rounding is abstracted away here (no claim depends on the
rounded value, only on the result being a JSON number). -/
def decimalToRat (m : Int) (e : Int) : ℚ :=
  (m : ℚ) * (10 : ℚ) ^ e

/-- Lower-case hexadecimal digit. -/
def hexDigit (n : Nat) : Char :=
  if n < 10 then Char.ofNat (48 + n) else Char.ofNat (87 + n)

/-- Two lower-case hex digits of a byte. -/
def hexByte (b : Nat) : String :=
  String.mk [hexDigit (b / 16), hexDigit (b % 16)]

/-- One byte inside `repr(bytes)`. -/
def byteEsc (quote : Char) (b : Nat) : String :=
  if b = 92 then "\\\\"
  else if b = 9 then "\\t"
  else if b = 10 then "\\n"
  else if b = 13 then "\\r"
  else if b = quote.toNat then "\\" ++ String.mk [quote]
  else if 32 ≤ b ∧ b ≤ 126 then String.mk [Char.ofNat b]
  else "\\x" ++ hexByte b

/-- Python `str(bytes)`, i.e. `repr(bytes)`: a quoted byte literal, switching to double quotes when
the bytes contain a single quote but no double quote. -/
def pyBytesRepr (bs : List Nat) : String :=
  let q : Char := if bs.contains 39 ∧ ¬ bs.contains 34 then '"' else '\x27'
  "b" ++ String.mk [q] ++ strJoin (bs.map (byteEsc q)) ++ String.mk [q]

/-- The string the `csv` writer produces for a cell value: `None` becomes
the empty string, other values go through `str()`. -/
def pyStrOfValue : PyValue → String
  | .vNone => ""
  | .vBool b => if b then "True" else "False"
  | .vInt i => toString i
  | .vStr s => s
  | .vDate d => pyDateIso d
  | .vDatetime dt => pyDatetimeStr dt
  | .vTime t => pyTimeIso t
  | .vDecimal m e => decimalStr m e
  | .vBytes bs => pyBytesRepr bs

/-! ## JSON values and the `DateTimeEncoder` of `app.py` -/

/-- A JSON value.  `jNum` carries the rational value of a JSON number
produced from a `Decimal` (see `decimalToRat`). -/
inductive JsonValue where
  | jNull
  | jBool (b : Bool)
  | jInt (i : Int)
  | jNum (q : ℚ)
  | jStr (s : String)
  | jArr (xs : List JsonValue)
  | jObj (fields : List (String × JsonValue))

/-- Behavior of `json.dumps(..., cls=DateTimeEncoder)` on one scalar: the base encoder
serializes `None`, `bool`, `int` and `str` natively; `DateTimeEncoder.default`
turns `date`/`datetime` and `time` into their `isoformat()` string and
`Decimal` into `float(obj)`; any other type (for example `bytes`) falls
through to `super().default`, which raises `TypeError` (`none` here). -/
def DateTimeEncoder : PyValue → Option JsonValue
  | .vNone => some .jNull
  | .vBool b => some (.jBool b)
  | .vInt i => some (.jInt i)
  | .vStr s => some (.jStr s)
  | .vDate d => some (.jStr (pyDateIso d))
  | .vDatetime dt => some (.jStr (pyDatetimeIso dt))
  | .vTime t => some (.jStr (pyTimeIso t))
  | .vDecimal m e => some (.jNum (decimalToRat m e))
  | .vBytes _ => none

/-- Traversal of a list under `Option`, failing at the first failure
(the order in which `json.dumps` and `csv.writerows` visit elements). -/
def mapMOpt (f : α → Option β) : List α → Option (List β)
  | [] => some []
  | x :: xs =>
    match f x, mapMOpt f xs with
    | some y, some ys => some (y :: ys)
    | _, _ => none

/-- Serialize one row dict to a JSON object. -/
def encodeRow (r : Row) : Option JsonValue :=
  (mapMOpt (fun kv => (DateTimeEncoder kv.2).map (fun j => (kv.1, j))) r).map .jObj

/-- Serialize the row list to a JSON array. -/
def encodeRows (rows : List Row) : Option JsonValue :=
  (mapMOpt encodeRow rows).map .jArr

/-! ## The `csv` module's writer (default dialect: `,` delimiter, `"`
quotechar, QUOTE_MINIMAL, `\r\n` line terminator) -/

/-- Characters forcing a field to be quoted under QUOTE_MINIMAL. -/
def csvSpecialChar (c : Char) : Bool :=
  c = ',' || c = '"' || c = '\r' || c = '\n'

/-- Quote one field when needed, doubling embedded quote characters. -/
def csvQuoteField (s : String) : String :=
  if s.toList.any csvSpecialChar then
    "\"" ++ strJoin (s.toList.map (fun c => if c = '"' then "\"\"" else String.mk [c])) ++ "\""
  else s

/-- One CSV record (without terminator).  A record made of a single empty
field is written as `""` by the writer to keep it distinguishable from an
empty line. -/
def csvRecord (fields : List String) : String :=
  if fields = [""] then "\"\"" else joinWith "," (fields.map csvQuoteField)

/-- The cell strings `DictWriter` writes for one row: values looked up per
fieldname, missing keys replaced by the default `restval` `""`. -/
def dictRowFields (fieldnames : List String) (r : Row) : List String :=
  fieldnames.map (fun k =>
    match r.lookup k with
    | some v => pyStrOfValue v
    | none => "")

/-- Python `DictWriter.writerow`: fails (`ValueError`) when the row dict contains a
key outside `fieldnames` (the default `extrasaction="raise"`), otherwise
produces the record for the row's cells. -/
def writeRowFields (fieldnames : List String) (r : Row) : Option String :=
  if r.any (fun kv => !(fieldnames.contains kv.1)) then none
  else some (csvRecord (dictRowFields fieldnames r))

/-- The CSV body built in `sqlquery`'s CSV branch: empty when there are no
rows; otherwise a header record from the first row's keys followed by one
record per row, each record terminated by `\r\n`. -/
def csvRender : List Row → Option String
  | [] => some ""
  | r0 :: rest =>
    let fieldnames := r0.map Prod.fst
    (mapMOpt (writeRowFields fieldnames) (r0 :: rest)).map
      (fun recs => strJoin ((csvRecord fieldnames :: recs).map (fun l => l ++ "\r\n")))

/-! ## The request handler -/

/-- Message constants of `app.py`. -/
def AUTH_MISSING_HEADER_MSG : String := "Missing Authorization header"

/-- Constant `AUTH_INVALID_SCHEME_MSG` of `app.py`. -/
def AUTH_INVALID_SCHEME_MSG : String := "Invalid auth scheme, use \x27Bearer <token>\x27"

/-- Constant `AUTH_INVALID_KEY_MSG` of `app.py`. -/
def AUTH_INVALID_KEY_MSG : String := "Invalid API key"

/-- Constant `QUERY_SUCCESS_MSG` of `app.py`. -/
def QUERY_SUCCESS_MSG : String := "Query executed successfully"

/-- Default `CSV_FILENAME` of `app.py`. -/
def CSV_FILENAME : String := "results.csv"

/-- Detail of the 400 raised for an unknown `format`. -/
def invalidFormatDetail : String := "Invalid format. Use \x27json\x27 or \x27csv\x27."

/-- Detail of the 500 raised when no pool exists for the backend name. -/
def noPoolDetail (cloud : String) : String :=
  "No pool configured for cloud \x27" ++ cloud ++ "\x27"

/-- The body FastAPI sends when an uncaught non-HTTP exception escapes a
dependency. -/
def INTERNAL_SERVER_ERROR_MSG : String := "Internal Server Error"

/-- An HTTP error response (`HTTPException`): status code and detail. -/
structure HTTPError where
  status : Nat
  detail : String

/-- The two engine families served by the pool manager. -/
inductive DbType where
  | postgresql
  | mysql

/-- A successful response of the `sqlquery` endpoint:
the plain-dict acknowledgment for non-data statements, the JSON payload for
`format=json`, or the `FileResponse` triple for `format=csv` (temp-file
path, declared filename, media type), with the bytes the temp file holds. -/
inductive Response where
  | statusResp (msg : String)
  | jsonResp (content : JsonValue)
  | csvFile (path : String) (content : String) (filename : String) (mediaType : String)

/-- An exception inside the endpoint's `try` block: either an
`HTTPException` (as raised by `create_async_connection`) or any other
exception carrying its `str()`. -/
inductive PyExc where
  | httpExc (status : Nat) (detail : String)
  | other (msg : String)

/-- Python `str(e)`: Starlette's `HTTPException.__str__` is
`"{status_code}: {detail}"`; other exceptions carry their message. -/
def strExc : PyExc → String
  | .httpExc s d => toString s ++ ": " ++ d
  | .other m => m

/-- Message of the `TypeError` raised by `json.dumps` on an unserializable value.  The
precise text names the offending Python type; no claim depends on it. -/
def jsonTypeErrMsg : String := "Object of type bytes is not JSON serializable"

/-- Message of the `ValueError` raised by `DictWriter` on a row with extra keys. -/
def dictFieldsErrMsg : String := "dict contains fields not in fieldnames"

/-- Which driver call path the handler took. -/
inductive DbCall where
  | fetchAll
  | executeOnly

/-- Environment-determined configuration of one process: the pool mapping
built at startup, the configured API key, and the row caps
(`MAX_JSON_ROWS`, default 10000; `MAX_CSV_ROWS`, default 1000000). -/
structure Env where
  pools : List (String × DbType)
  apiKey : String
  maxJsonRows : Nat
  maxCsvRows : Nat

/-- Oracle for everything outside the process: the database and the file
system.  It fixes, for one request, whether `pool.acquire()` succeeds, the
outcome of the non-data `execute` call, the outcome of the data-path fetch,
whether the temp-file write succeeds and the name `tempfile` picks, and
whether `pool.release` succeeds. -/
structure Oracle where
  acquireOk : Bool
  acquireErrMsg : String
  execResult : Except String Unit
  fetchResult : Except String (List Row)
  tempWriteOk : Bool
  tempErrMsg : String
  tempPath : String
  releaseOk : Bool

/-- The dependency `verify_api_key`: a missing — or, via Python
truthiness, empty — header gives 401 with the missing-header message; a
non-`bearer` scheme (case-insensitive) or empty token gives 401 with the
invalid-scheme message; `secrets.compare_digest` then compares the token
with `API_KEY` (it raises `TypeError` on non-ASCII strings, which FastAPI
turns into a 500); a mismatch gives 403.  `none` means the check passed. -/
def verify_api_key (auth : Option String) (apiKey : String) : Option HTTPError :=
  match auth with
  | none => some ⟨401, AUTH_MISSING_HEADER_MSG⟩
  | some a =>
    if a = "" then some ⟨401, AUTH_MISSING_HEADER_MSG⟩
    else
      let p := pyPartitionSpace a
      if asciiLower p.1 ≠ "bearer" ∨ p.2 = "" then some ⟨401, AUTH_INVALID_SCHEME_MSG⟩
      else if ¬ (isAsciiStr p.2 = true ∧ isAsciiStr apiKey = true) then
        some ⟨500, INTERNAL_SERVER_ERROR_MSG⟩
      else if p.2 ≠ apiKey then some ⟨403, AUTH_INVALID_KEY_MSG⟩
      else none

/-- The helper `create_async_connection`: raise the no-pool `HTTPException` when the
backend name has no pool; otherwise acquire from the pool (the acquire
itself may fail with a driver error; the best-effort
`SET SESSION MAX_EXECUTION_TIME` for MySQL swallows its own errors and is
invisible here). -/
def create_async_connection (env : Env) (oracle : Oracle) (cloud : String) :
    Except PyExc DbType :=
  match env.pools.lookup cloud with
  | none => .error (.httpExc 500 (noPoolDetail cloud))
  | some dbt =>
    if oracle.acquireOk then .ok dbt else .error (.other oracle.acquireErrMsg)

/-- The classifier of `sqlquery`: strip, lower, and test the five keyword
prefixes. -/
def is_data_query (sqlquery : String) : Bool :=
  let query_lower := asciiLower (pyStrip sqlquery)
  pyStartsWith query_lower "select" ||
  pyStartsWith query_lower "show" ||
  pyStartsWith query_lower "describe" ||
  pyStartsWith query_lower "explain" ||
  pyStartsWith query_lower "with"

/-- The encoding tail of the data path: apply the format's row cap, then
serialize.  JSON: `{"rows": ..., "truncated": ...}` via `DateTimeEncoder`
(a `TypeError` becomes an in-`try` exception).  CSV: render the capped rows
(a `DictWriter` `ValueError` becomes an exception), write the temp file
(an OS error becomes an exception), answer with a `FileResponse`. -/
def renderRows (oracle : Oracle) (rows : List Row) (fmt : String)
    (maxJsonRows maxCsvRows : Nat) : Except PyExc Response :=
  if fmt = "json" then
    let truncated := decide (rows.length > maxJsonRows)
    let rows2 := if rows.length > maxJsonRows then rows.take maxJsonRows else rows
    match encodeRows rows2 with
    | none => .error (.other jsonTypeErrMsg)
    | some jrows =>
      .ok (.jsonResp (.jObj [("rows", jrows), ("truncated", .jBool truncated)]))
  else
    let csv_rows := if rows.length > maxCsvRows then rows.take maxCsvRows else rows
    match csvRender csv_rows with
    | none => .error (.other dictFieldsErrMsg)
    | some content =>
      if oracle.tempWriteOk then
        .ok (.csvFile oracle.tempPath content CSV_FILENAME "text/csv")
      else .error (.other oracle.tempErrMsg)

/-- The classify-execute-encode body run once a connection is held: non-data
statements go through `execute` (+`commit` on MySQL) and acknowledge;
data statements fetch all rows and encode.  Also reports which driver call
path ran. -/
def sqlqueryBody (oracle : Oracle) (sqlquery fmt : String)
    (maxJsonRows maxCsvRows : Nat) : Except PyExc Response × DbCall :=
  if is_data_query sqlquery = false then
    match oracle.execResult with
    | .error m => (.error (.other m), .executeOnly)
    | .ok _ => (.ok (.statusResp QUERY_SUCCESS_MSG), .executeOnly)
  else
    match oracle.fetchResult with
    | .error m => (.error (.other m), .fetchAll)
    | .ok rows => (renderRows oracle rows fmt maxJsonRows maxCsvRows, .fetchAll)

/-- Result of the endpoint's `try` block: its outcome, whether a connection
was acquired (so the `finally` block has something to release), and the
driver call path taken. -/
structure TryResult where
  res : Except PyExc Response
  connected : Bool
  dbCall : Option DbCall

/-- The `try` block of `sqlquery`: acquire, then classify/execute/encode.
Any failure before the acquire returns leaves `connection = None`. -/
def sqlqueryTry (env : Env) (oracle : Oracle) (sqlquery cloud fmt : String) :
    TryResult :=
  match create_async_connection env oracle cloud with
  | .error e => ⟨.error e, false, none⟩
  | .ok _ =>
    let inner := sqlqueryBody oracle sqlquery fmt env.maxJsonRows env.maxCsvRows
    ⟨inner.1, true, some inner.2⟩

/-- Observable outcome of one call of the endpoint: the HTTP-level result,
how many times the connection was released back to its pool, which driver
call path ran, and whether a release failure was logged. -/
structure Outcome where
  result : Except HTTPError Response
  releases : Nat
  dbCall : Option DbCall
  releaseErrorLogged : Bool

/-- The `sqlquery` endpoint after auth: lower the `format` parameter
(defaulting to `json` when empty) and 400 on anything but `json`/`csv`
before the `try` block; run the `try` block; the `except` clause wraps any
exception into `HTTPException(500, str(e))`; the `finally` clause releases
the connection exactly when one was acquired and the pool still exists,
logging (never raising) a release failure. -/
def sqlqueryHandler (env : Env) (oracle : Oracle) (sqlquery cloud format : String) :
    Outcome :=
  let fmt := asciiLower (if format = "" then "json" else format)
  if fmt = "json" ∨ fmt = "csv" then
    let t := sqlqueryTry env oracle sqlquery cloud fmt
    let result : Except HTTPError Response :=
      match t.res with
      | .ok r => .ok r
      | .error e => .error ⟨500, strExc e⟩
    let doRelease := t.connected && (env.pools.lookup cloud).isSome
    { result := result
      releases := if doRelease then 1 else 0
      dbCall := t.dbCall
      releaseErrorLogged := doRelease && !oracle.releaseOk }
  else
    ⟨.error ⟨400, invalidFormatDetail⟩, 0, none, false⟩

/-- One request through the dependency chain: `verify_api_key` runs before
the endpoint body (rate limiting, out of scope, sits between them). -/
def sqlqueryPipeline (env : Env) (oracle : Oracle) (authHeader : Option String)
    (sqlquery cloud format : String) : Outcome :=
  match verify_api_key authHeader env.apiKey with
  | some err => ⟨.error err, 0, none, false⟩
  | none => sqlqueryHandler env oracle sqlquery cloud format

/-- A response object as Starlette hands it to an `@app.middleware("http")`
function: either a genuine `FileResponse` instance — the case the
`isinstance` guard in `remove_temp_file` tests for, of which only the
`path` attribute is consulted besides the class itself — or the
`_StreamingResponse` that `BaseHTTPMiddleware.call_next` re-assembles from
the downstream ASGI messages, which carries the downstream response's
payload but not its Python class. -/
inductive MiddlewareResponse where
  | fileResponse (path : String) (filename : String) (mediaType : String)
  | streamingResponse (of : Response)

/-- Starlette `BaseHTTPMiddleware.call_next`
(`starlette/middleware/base.py`): whatever response the downstream app
produced, the middleware function receives a freshly built
`_StreamingResponse` — never the endpoint's own `FileResponse` object,
whose identity is lost at the ASGI boundary. -/
def call_next (r : Response) : MiddlewareResponse :=
  .streamingResponse r

/-- The `remove_temp_file` middleware body applied to what `call_next`
returned: when the received object is a `FileResponse` instance whose path
still exists, attempt `os.remove`, logging (never raising) a failure; any
other object is passed through with the file system untouched.  The file
system is a predicate `fs : path → exists?`; `removeOk` says whether
`os.remove` succeeds.  Returns (response passed through unchanged, file
system afterwards, whether a removal error was logged). -/
def remove_temp_file (response : MiddlewareResponse) (fs : String → Bool)
    (removeOk : Bool) : MiddlewareResponse × (String → Bool) × Bool :=
  match response with
  | .fileResponse path _ _ =>
    if fs path then
      if removeOk then
        (response, fun p => if p = path then false else fs p, false)
      else (response, fs, true)
    else (response, fs, false)
  | r => (r, fs, false)

/-- The `truncated` flag a response reports: present only in the JSON
payload of the data path. -/
def reportsTrunc (r : Response) : Option Bool :=
  match r with
  | .jsonResp (.jObj fields) =>
    match fields.lookup "truncated" with
    | some (.jBool b) => some b
    | _ => none
  | _ => none

/-- The number of result rows a JSON response carries. -/
def jsonRowCount (r : Response) : Option Nat :=
  match r with
  | .jsonResp (.jObj fields) =>
    match fields.lookup "rows" with
    | some (.jArr xs) => some xs.length
    | _ => none
  | _ => none

/-! ## Helper lemmas -/

theorem sqlqueryTry_releaseOk (env : Env) (oracle : Oracle) (b : Bool)
    (q cloud fmt : String) :
    sqlqueryTry env { oracle with releaseOk := b } q cloud fmt =
      sqlqueryTry env oracle q cloud fmt := by
  cases oracle; rfl

theorem handler_result_releaseOk (env : Env) (oracle : Oracle) (b : Bool)
    (q cloud format : String) :
    (sqlqueryHandler env { oracle with releaseOk := b } q cloud format).result =
      (sqlqueryHandler env oracle q cloud format).result := by
  unfold sqlqueryHandler
  simp only [sqlqueryTry_releaseOk]
  split <;> split <;> rfl

theorem sqlqueryTry_acquired (env : Env) (oracle : Oracle) (q cloud fmt : String)
    (dbt : DbType) (hpool : env.pools.lookup cloud = some dbt)
    (hacq : oracle.acquireOk = true) :
    sqlqueryTry env oracle q cloud fmt =
      ⟨(sqlqueryBody oracle q fmt env.maxJsonRows env.maxCsvRows).1, true,
        some (sqlqueryBody oracle q fmt env.maxJsonRows env.maxCsvRows).2⟩ := by
  unfold sqlqueryTry create_async_connection
  rw [hpool]
  simp [hacq]

theorem sqlqueryBody_dbCall (oracle : Oracle) (q fmt : String) (mj mc : Nat) :
    (sqlqueryBody oracle q fmt mj mc).2 =
      if is_data_query q then DbCall.fetchAll else DbCall.executeOnly := by
  unfold sqlqueryBody
  cases h : is_data_query q
  · simp only [h]
    cases oracle.execResult <;> rfl
  · simp only [h]
    cases oracle.fetchResult <;> rfl

/-- The handler under a valid, already-lowered format, a configured pool and
a successful acquire. -/
theorem sqlqueryHandler_run (env : Env) (oracle : Oracle) (q cloud format : String)
    (dbt : DbType)
    (hfmt : asciiLower (if format = "" then "json" else format) = "json" ∨
            asciiLower (if format = "" then "json" else format) = "csv")
    (hpool : env.pools.lookup cloud = some dbt)
    (hacq : oracle.acquireOk = true) :
    sqlqueryHandler env oracle q cloud format =
      { result :=
          match (sqlqueryBody oracle q
              (asciiLower (if format = "" then "json" else format))
              env.maxJsonRows env.maxCsvRows).1 with
          | .ok r => .ok r
          | .error e => .error ⟨500, strExc e⟩
        releases := 1
        dbCall := some (sqlqueryBody oracle q
            (asciiLower (if format = "" then "json" else format))
            env.maxJsonRows env.maxCsvRows).2
        releaseErrorLogged := !oracle.releaseOk } := by
  unfold sqlqueryHandler
  rw [if_pos hfmt]
  rw [sqlqueryTry_acquired env oracle q cloud _ dbt hpool hacq]
  simp [hpool]

theorem pipeline_auth_ok (env : Env) (oracle : Oracle) (hdr : Option String)
    (q cloud format : String) (hauth : verify_api_key hdr env.apiKey = none) :
    sqlqueryPipeline env oracle hdr q cloud format =
      sqlqueryHandler env oracle q cloud format := by
  unfold sqlqueryPipeline
  rw [hauth]

/-! ## C1 -/

/-- C1: whenever a request passes authentication and format validation and
successfully acquires a pooled connection (its backend has a pool and the
acquire succeeds), the connection is released back to its pool exactly once
on every exit path — for every oracle, i.e. whatever the classifier,
executor, encoder or temp-file write do — and flipping the release-failure
oracle changes only the logged flag, never the primary response. -/
theorem released_exactly_once (env : Env) (oracle : Oracle) (hdr : Option String)
    (q cloud format : String) (dbt : DbType)
    (hauth : verify_api_key hdr env.apiKey = none)
    (hfmt : asciiLower (if format = "" then "json" else format) = "json" ∨
            asciiLower (if format = "" then "json" else format) = "csv")
    (hpool : env.pools.lookup cloud = some dbt)
    (hacq : oracle.acquireOk = true) :
    (sqlqueryPipeline env oracle hdr q cloud format).releases = 1 ∧
    ∀ b : Bool,
      (sqlqueryPipeline env { oracle with releaseOk := b } hdr q cloud format).result =
        (sqlqueryPipeline env oracle hdr q cloud format).result := by
  constructor
  · rw [pipeline_auth_ok env oracle hdr q cloud format hauth]
    rw [sqlqueryHandler_run env oracle q cloud format dbt hfmt hpool hacq]
  · intro b
    rw [pipeline_auth_ok env oracle hdr q cloud format hauth,
      pipeline_auth_ok env _ hdr q cloud format hauth]
    exact handler_result_releaseOk env oracle b q cloud format

/-- Witness for C1 at a concrete request: pool `db`, key `key`, a JSON
`select` whose fetch succeeds. -/
theorem released_exactly_once_witness :
    verify_api_key (some "Bearer key") "key" = none ∧
    ([(("db" : String), DbType.postgresql)].lookup "db" = some DbType.postgresql) ∧
    (sqlqueryPipeline ⟨[("db", DbType.postgresql)], "key", 10000, 1000000⟩
        ⟨true, "", .ok (), .ok [[("x", .vInt 1)]], true, "", "/tmp/r.csv", true⟩
        (some "Bearer key") "select 1" "db" "json").releases = 1 :=
  ⟨rfl, rfl,
    (released_exactly_once ⟨[("db", DbType.postgresql)], "key", 10000, 1000000⟩
      ⟨true, "", .ok (), .ok [[("x", .vInt 1)]], true, "", "/tmp/r.csv", true⟩
      (some "Bearer key") "select 1" "db" "json" DbType.postgresql rfl
      (Or.inl rfl) rfl rfl).1⟩

/-! ## C2 -/

/-- C2, where the code, not the claim, is at fault: the temp-file
middleware never deletes anything.  `BaseHTTPMiddleware.call_next` returns
a `_StreamingResponse` wrapper, never the endpoint's `FileResponse`, so
the `isinstance` guard in `remove_temp_file` never matches: for every
downstream response, file system and `os.remove` outcome, the middleware
passes the wrapper through and leaves the file system untouched — in
particular, after the CSV response of the failing input, backed by
`/tmp/r.csv`, the transient file still exists on disk. -/
theorem temp_file_never_removed :
    (∀ (r : Response) (fs : String → Bool) (removeOk : Bool),
      remove_temp_file (call_next r) fs removeOk = (call_next r, fs, false)) ∧
    (remove_temp_file
        (call_next (.csvFile "/tmp/r.csv" "x\r\n1\r\n" CSV_FILENAME "text/csv"))
        (fun p => p = "/tmp/r.csv") true).2.1 "/tmp/r.csv" = true :=
  ⟨fun _ _ _ => rfl, by decide⟩

/-! ## C7 -/

/-- C7: independently of the backend name, query text and format — a
missing `Authorization` header yields 401 with the missing-header message;
a present non-empty header whose scheme is not `bearer` (case-insensitive)
or whose token is empty yields 401 with the invalid-scheme message; a
well-formed bearer token (non-empty, ASCII — the character set of valid
bearer tokens) that differs from the configured (ASCII) API key yields 403
with the invalid-key message. -/
theorem auth_errors (env : Env) (oracle : Oracle) (q cloud format : String) :
    ((sqlqueryPipeline env oracle none q cloud format).result =
      .error ⟨401, AUTH_MISSING_HEADER_MSG⟩) ∧
    (∀ a : String, a ≠ "" →
      (asciiLower (pyPartitionSpace a).1 ≠ "bearer" ∨ (pyPartitionSpace a).2 = "") →
      (sqlqueryPipeline env oracle (some a) q cloud format).result =
        .error ⟨401, AUTH_INVALID_SCHEME_MSG⟩) ∧
    (∀ a : String, a ≠ "" →
      asciiLower (pyPartitionSpace a).1 = "bearer" →
      (pyPartitionSpace a).2 ≠ "" →
      isAsciiStr (pyPartitionSpace a).2 = true →
      isAsciiStr env.apiKey = true →
      (pyPartitionSpace a).2 ≠ env.apiKey →
      (sqlqueryPipeline env oracle (some a) q cloud format).result =
        .error ⟨403, AUTH_INVALID_KEY_MSG⟩) := by
  refine ⟨rfl, ?_, ?_⟩
  · intro a hne hbad
    simp only [sqlqueryPipeline, verify_api_key]
    rw [if_neg hne, if_pos hbad]
  · intro a hne hscheme htok hascii1 hascii2 hneq
    simp only [sqlqueryPipeline, verify_api_key]
    rw [if_neg hne,
      if_neg (by
        intro h
        exact h.elim (fun hn => hn hscheme) htok),
      if_neg (by
        intro h
        exact h ⟨hascii1, hascii2⟩),
      if_pos hneq]

/-- Witness for C7: the invalid-scheme case at `Basic key` and the
invalid-key case at `Bearer wrong` against key `key`. -/
theorem auth_errors_witness :
    ((sqlqueryPipeline ⟨[], "key", 10000, 1000000⟩
        ⟨true, "", .ok (), .ok [], true, "", "", true⟩
        (some "Basic key") "select 1" "db" "json").result =
      .error ⟨401, AUTH_INVALID_SCHEME_MSG⟩) ∧
    ((sqlqueryPipeline ⟨[], "key", 10000, 1000000⟩
        ⟨true, "", .ok (), .ok [], true, "", "", true⟩
        (some "Bearer wrong") "select 1" "db" "json").result =
      .error ⟨403, AUTH_INVALID_KEY_MSG⟩) :=
  ⟨(auth_errors ⟨[], "key", 10000, 1000000⟩
      ⟨true, "", .ok (), .ok [], true, "", "", true⟩ "select 1" "db" "json").2.1
      "Basic key" (by decide) (Or.inl (by decide)),
   (auth_errors ⟨[], "key", 10000, 1000000⟩
      ⟨true, "", .ok (), .ok [], true, "", "", true⟩ "select 1" "db" "json").2.2
      "Bearer wrong" (by decide) (by decide) (by decide) (by decide) (by decide)
      (by decide)⟩

/-! ## C5 -/

/-- C5: an authenticated request with a valid format whose backend name is
absent from the pool mapping — whether never configured, skipped for an
unsupported scheme, or lost to a failed pool creation, absence is absence —
fails with the handled HTTP 500 whose message says no pool is configured
for that backend (wrapped by the endpoint's `except` clause into
`500: <detail>`), with no connection ever acquired or released: never an
unhandled crash. -/
theorem no_pool_500 (env : Env) (oracle : Oracle) (hdr : Option String)
    (q cloud format : String)
    (hauth : verify_api_key hdr env.apiKey = none)
    (hfmt : asciiLower (if format = "" then "json" else format) = "json" ∨
            asciiLower (if format = "" then "json" else format) = "csv")
    (hnopool : env.pools.lookup cloud = none) :
    (sqlqueryPipeline env oracle hdr q cloud format).result =
      .error ⟨500, "500: " ++ noPoolDetail cloud⟩ ∧
    (sqlqueryPipeline env oracle hdr q cloud format).releases = 0 := by
  rw [pipeline_auth_ok env oracle hdr q cloud format hauth]
  unfold sqlqueryHandler
  rw [if_pos hfmt]
  unfold sqlqueryTry create_async_connection
  rw [hnopool]
  exact ⟨rfl, rfl⟩

/-- Witness for C5: backend `nodb` against a pool map holding only `db`. -/
theorem no_pool_500_witness :
    (sqlqueryPipeline ⟨[("db", DbType.postgresql)], "key", 10000, 1000000⟩
        ⟨true, "", .ok (), .ok [], true, "", "", true⟩
        (some "Bearer key") "select 1" "nodb" "json").result =
      .error ⟨500, "500: " ++ noPoolDetail "nodb"⟩ :=
  (no_pool_500 ⟨[("db", DbType.postgresql)], "key", 10000, 1000000⟩
    ⟨true, "", .ok (), .ok [], true, "", "", true⟩
    (some "Bearer key") "select 1" "nodb" "json" rfl (Or.inl rfl) rfl).1

/-! ## C9 -/

/-- C9: the `format` parameter is validated up front, before any pool
lookup or connection acquisition: (1) for any authenticated request whose
lowered format is outside `json`/`csv` — whatever the backend name, known
or not, so the 400 takes precedence over the 500 no-pool error — the
response is the 400 invalid-format error, no connection is acquired or
released and no statement runs, and the outcome does not depend on the pool
mapping at all; (2) the handler depends on the format parameter only
through its lowercase image (so `JSON` and `Csv` are accepted exactly like
`json` and `csv`). -/
theorem format_precheck (env : Env) (oracle : Oracle) (hdr : Option String)
    (q cloud format : String) :
    ((verify_api_key hdr env.apiKey = none) →
      ¬ (asciiLower (if format = "" then "json" else format) = "json" ∨
         asciiLower (if format = "" then "json" else format) = "csv") →
      (sqlqueryPipeline env oracle hdr q cloud format).result =
          .error ⟨400, invalidFormatDetail⟩ ∧
        (sqlqueryPipeline env oracle hdr q cloud format).releases = 0 ∧
        (sqlqueryPipeline env oracle hdr q cloud format).dbCall = none ∧
        ∀ pools2 : List (String × DbType),
          sqlqueryPipeline env oracle hdr q cloud format =
            sqlqueryPipeline ⟨pools2, env.apiKey, env.maxJsonRows, env.maxCsvRows⟩
              oracle hdr q cloud format) ∧
    (∀ format2 : String,
      asciiLower (if format = "" then "json" else format) =
          asciiLower (if format2 = "" then "json" else format2) →
      sqlqueryPipeline env oracle hdr q cloud format =
        sqlqueryPipeline env oracle hdr q cloud format2) := by
  constructor
  · intro hauth hbad
    rw [pipeline_auth_ok env oracle hdr q cloud format hauth]
    refine ⟨?_, ?_, ?_, ?_⟩
    · unfold sqlqueryHandler
      rw [if_neg hbad]
    · unfold sqlqueryHandler
      rw [if_neg hbad]
    · unfold sqlqueryHandler
      rw [if_neg hbad]
    · intro pools2
      rw [pipeline_auth_ok ⟨pools2, env.apiKey, env.maxJsonRows, env.maxCsvRows⟩
        oracle hdr q cloud format hauth]
      unfold sqlqueryHandler
      rw [if_neg hbad, if_neg hbad]
  · intro format2 h
    unfold sqlqueryPipeline
    cases verify_api_key hdr env.apiKey with
    | none =>
      simp only [sqlqueryHandler, h]
    | some err => rfl

/-- Witness for C9: format `xml` with an unknown backend gives 400 (not the
no-pool 500), and `JSON` behaves exactly as `json`. -/
theorem format_precheck_witness :
    ((sqlqueryPipeline ⟨[("db", DbType.postgresql)], "key", 10000, 1000000⟩
        ⟨true, "", .ok (), .ok [], true, "", "", true⟩
        (some "Bearer key") "select 1" "nodb" "xml").result =
      .error ⟨400, invalidFormatDetail⟩) ∧
    (sqlqueryPipeline ⟨[("db", DbType.postgresql)], "key", 10000, 1000000⟩
        ⟨true, "", .ok (), .ok [], true, "", "", true⟩
        (some "Bearer key") "select 1" "db" "JSON" =
      sqlqueryPipeline ⟨[("db", DbType.postgresql)], "key", 10000, 1000000⟩
        ⟨true, "", .ok (), .ok [], true, "", "", true⟩
        (some "Bearer key") "select 1" "db" "json") :=
  ⟨((format_precheck ⟨[("db", DbType.postgresql)], "key", 10000, 1000000⟩
      ⟨true, "", .ok (), .ok [], true, "", "", true⟩
      (some "Bearer key") "select 1" "nodb" "xml").1 rfl (by decide)).1,
   (format_precheck ⟨[("db", DbType.postgresql)], "key", 10000, 1000000⟩
      ⟨true, "", .ok (), .ok [], true, "", "", true⟩
      (some "Bearer key") "select 1" "db" "JSON").2 "json" rfl⟩

/-! ## C4 -/

/-- C4: the classifier marks a statement data-returning exactly when its
text, stripped of surrounding whitespace and lowercased, starts with one of
the five keywords `select`, `show`, `describe`, `explain`, `with`; and on
any request that reaches execution, data-returning statements run on the
fetch-all-rows path while every other statement runs on the
execute-and-acknowledge path. -/
theorem classify_and_route :
    (∀ q : String, is_data_query q =
      (pyStartsWith (asciiLower (pyStrip q)) "select" ||
       pyStartsWith (asciiLower (pyStrip q)) "show" ||
       pyStartsWith (asciiLower (pyStrip q)) "describe" ||
       pyStartsWith (asciiLower (pyStrip q)) "explain" ||
       pyStartsWith (asciiLower (pyStrip q)) "with")) ∧
    (∀ (env : Env) (oracle : Oracle) (hdr : Option String)
        (q cloud format : String) (dbt : DbType),
      verify_api_key hdr env.apiKey = none →
      (asciiLower (if format = "" then "json" else format) = "json" ∨
       asciiLower (if format = "" then "json" else format) = "csv") →
      env.pools.lookup cloud = some dbt →
      oracle.acquireOk = true →
      (sqlqueryPipeline env oracle hdr q cloud format).dbCall =
        some (if is_data_query q then DbCall.fetchAll else DbCall.executeOnly)) := by
  constructor
  · intro q
    rfl
  · intro env oracle hdr q cloud format dbt hauth hfmt hpool hacq
    rw [pipeline_auth_ok env oracle hdr q cloud format hauth]
    rw [sqlqueryHandler_run env oracle q cloud format dbt hfmt hpool hacq]
    simp only [sqlqueryBody_dbCall]

/-- Witness for C4: `select 1` routes to the fetch path and
`insert into t values (1)` to the acknowledge path. -/
theorem classify_and_route_witness :
    ((sqlqueryPipeline ⟨[("db", DbType.postgresql)], "key", 10000, 1000000⟩
        ⟨true, "", .ok (), .ok [], true, "", "", true⟩
        (some "Bearer key") "select 1" "db" "json").dbCall =
      some (if is_data_query "select 1" then DbCall.fetchAll else DbCall.executeOnly)) ∧
    ((sqlqueryPipeline ⟨[("db", DbType.postgresql)], "key", 10000, 1000000⟩
        ⟨true, "", .ok (), .ok [], true, "", "", true⟩
        (some "Bearer key") "insert into t values (1)" "db" "json").dbCall =
      some (if is_data_query "insert into t values (1)" then DbCall.fetchAll
        else DbCall.executeOnly)) :=
  ⟨classify_and_route.2 ⟨[("db", DbType.postgresql)], "key", 10000, 1000000⟩
    ⟨true, "", .ok (), .ok [], true, "", "", true⟩
    (some "Bearer key") "select 1" "db" "json" DbType.postgresql rfl (Or.inl rfl)
    rfl rfl,
   classify_and_route.2 ⟨[("db", DbType.postgresql)], "key", 10000, 1000000⟩
    ⟨true, "", .ok (), .ok [], true, "", "", true⟩
    (some "Bearer key") "insert into t values (1)" "db" "json" DbType.postgresql
    rfl (Or.inl rfl) rfl rfl⟩

/-! ## C10 -/

/-- C10: classification is a raw prefix test with no word-boundary check:
any statement whose stripped, lowercased text extends one of the five
keywords — also as a prefix of a longer word, such as `withdraw ...` or
`showcase ...` — is classified data-returning, and on any request reaching
execution it runs on the row-fetch path, not the acknowledge path. -/
theorem keyword_prefix_no_boundary :
    (∀ (q kw : String),
      kw ∈ ["select", "show", "describe", "explain", "with"] →
      pyStartsWith (asciiLower (pyStrip q)) kw = true →
      is_data_query q = true) ∧
    (∀ (env : Env) (oracle : Oracle) (hdr : Option String)
        (q cloud format kw : String) (dbt : DbType),
      verify_api_key hdr env.apiKey = none →
      (asciiLower (if format = "" then "json" else format) = "json" ∨
       asciiLower (if format = "" then "json" else format) = "csv") →
      env.pools.lookup cloud = some dbt →
      oracle.acquireOk = true →
      kw ∈ ["select", "show", "describe", "explain", "with"] →
      pyStartsWith (asciiLower (pyStrip q)) kw = true →
      (sqlqueryPipeline env oracle hdr q cloud format).dbCall =
        some DbCall.fetchAll) := by
  have hcls : ∀ (q kw : String),
      kw ∈ ["select", "show", "describe", "explain", "with"] →
      pyStartsWith (asciiLower (pyStrip q)) kw = true →
      is_data_query q = true := by
    intro q kw hkw hpre
    unfold is_data_query
    simp only [List.mem_cons, List.mem_singleton] at hkw
    rcases hkw with rfl | rfl | rfl | rfl | rfl | h
    · simp [hpre]
    · simp [hpre]
    · simp [hpre]
    · simp [hpre]
    · simp [hpre]
    · cases h
  constructor
  · exact hcls
  · intro env oracle hdr q cloud format kw dbt hauth hfmt hpool hacq hkw hpre
    rw [pipeline_auth_ok env oracle hdr q cloud format hauth]
    rw [sqlqueryHandler_run env oracle q cloud format dbt hfmt hpool hacq]
    simp only [sqlqueryBody_dbCall]
    rw [hcls q kw hkw hpre]
    rfl

/-- Witness for C10: `withdraw 100 from accounts` starts with `with` as a
raw prefix and is routed to the fetch path. -/
theorem keyword_prefix_no_boundary_witness :
    is_data_query "withdraw 100 from accounts" = true ∧
    (sqlqueryPipeline ⟨[("db", DbType.postgresql)], "key", 10000, 1000000⟩
        ⟨true, "", .ok (), .ok [], true, "", "", true⟩
        (some "Bearer key") "withdraw 100 from accounts" "db" "json").dbCall =
      some DbCall.fetchAll :=
  ⟨keyword_prefix_no_boundary.1 "withdraw 100 from accounts" "with"
    (by decide) (by decide),
   keyword_prefix_no_boundary.2 ⟨[("db", DbType.postgresql)], "key", 10000, 1000000⟩
    ⟨true, "", .ok (), .ok [], true, "", "", true⟩
    (some "Bearer key") "withdraw 100 from accounts" "db" "json" "with"
    DbType.postgresql rfl (Or.inl rfl) rfl rfl (by decide) (by decide)⟩

/-! ## C8 -/

/-- C8: the `DateTimeEncoder` serialization of the JSON path raises no
error on the extended scalar kinds: a `date` or `datetime` value becomes
its ISO-8601 string, a time-of-day value becomes its ISO-8601 string, a
`Decimal` becomes a JSON number (via `float`), and `None` becomes JSON
`null`; consequently a whole row holding a date, a decimal and a null
serializes without error to the corresponding JSON object. -/
theorem datetime_encoder_scalars :
    (∀ d : PyDate, DateTimeEncoder (.vDate d) = some (.jStr (pyDateIso d))) ∧
    (∀ dt : PyDatetime,
      DateTimeEncoder (.vDatetime dt) = some (.jStr (pyDatetimeIso dt))) ∧
    (∀ t : PyTime, DateTimeEncoder (.vTime t) = some (.jStr (pyTimeIso t))) ∧
    (∀ m e : Int,
      DateTimeEncoder (.vDecimal m e) = some (.jNum (decimalToRat m e))) ∧
    (DateTimeEncoder .vNone = some .jNull) ∧
    (∀ (k1 k2 k3 : String) (d : PyDate) (m e : Int),
      encodeRow [(k1, .vDate d), (k2, .vDecimal m e), (k3, .vNone)] =
        some (.jObj [(k1, .jStr (pyDateIso d)), (k2, .jNum (decimalToRat m e)),
          (k3, .jNull)])) :=
  ⟨fun _ => rfl, fun _ => rfl, fun _ => rfl, fun _ _ => rfl, rfl,
   fun _ _ _ _ _ _ => rfl⟩

/-! ## Row-cap lemmas -/

theorem mapMOpt_length (f : α → Option β) :
    ∀ (l : List α) (ys : List β), mapMOpt f l = some ys → ys.length = l.length := by
  intro l
  induction l with
  | nil =>
    intro ys h
    simp only [mapMOpt, Option.some.injEq] at h
    subst h
    rfl
  | cons x xs ih =>
    intro ys h
    simp only [mapMOpt] at h
    cases hfx : f x with
    | none => simp [hfx] at h
    | some y =>
      cases hm : mapMOpt f xs with
      | none => simp [hfx, hm] at h
      | some ys2 =>
        simp only [hfx, hm, Option.some.injEq] at h
        subst h
        simp [ih ys2 hm]

theorem mapMOpt_forall (f : α → Option β) (g : α → β) :
    ∀ (l : List α), (∀ x ∈ l, f x = some (g x)) → mapMOpt f l = some (l.map g) := by
  intro l
  induction l with
  | nil => intro _; rfl
  | cons x xs ih =>
    intro h
    have hx := h x (List.mem_cons_self x xs)
    have hxs := ih (fun y hy => h y (List.mem_cons_of_mem x hy))
    simp [mapMOpt, hx, hxs]

theorem encodeRows_length (rows : List Row) (js : List JsonValue)
    (h : encodeRows rows = some (.jArr js)) : js.length = rows.length := by
  unfold encodeRows at h
  cases hm : mapMOpt encodeRow rows with
  | none => simp [hm] at h
  | some os =>
    rw [hm] at h
    simp at h
    subst h
    exact mapMOpt_length encodeRow rows os hm

theorem ite_take_eq_take (rows : List Row) (n : Nat) :
    (if rows.length > n then rows.take n else rows) = rows.take n := by
  by_cases hlen : rows.length > n
  · rw [if_pos hlen]
  · rw [if_neg hlen, List.take_of_length_le (Nat.le_of_not_lt hlen)]

theorem renderRows_json (oracle : Oracle) (rows : List Row) (mj mc : Nat)
    (js : List JsonValue)
    (henc : encodeRows (rows.take mj) = some (.jArr js)) :
    renderRows oracle rows "json" mj mc =
      .ok (.jsonResp (.jObj [("rows", .jArr js),
        ("truncated", .jBool (decide (rows.length > mj)))])) := by
  simp only [renderRows, ite_take_eq_take, henc]
  rw [if_pos trivial]

theorem renderRows_csv (oracle : Oracle) (rows : List Row) (mj mc : Nat)
    (content : String)
    (hrender : csvRender (rows.take mc) = some content)
    (hwrite : oracle.tempWriteOk = true) :
    renderRows oracle rows "csv" mj mc =
      .ok (.csvFile oracle.tempPath content CSV_FILENAME "text/csv") := by
  simp only [renderRows, ite_take_eq_take, hrender, hwrite]
  rw [if_neg (by decide), if_pos trivial]

/-- The primary result of a request whose statement is data-returning and
whose fetch succeeds is the rendering of the fetched rows. -/
theorem pipeline_data_result (env : Env) (oracle : Oracle) (hdr : Option String)
    (q cloud format : String) (dbt : DbType) (rows : List Row)
    (hauth : verify_api_key hdr env.apiKey = none)
    (hfmt : asciiLower (if format = "" then "json" else format) = "json" ∨
            asciiLower (if format = "" then "json" else format) = "csv")
    (hpool : env.pools.lookup cloud = some dbt)
    (hacq : oracle.acquireOk = true)
    (hdq : is_data_query q = true)
    (hfetch : oracle.fetchResult = .ok rows) :
    (sqlqueryPipeline env oracle hdr q cloud format).result =
      match renderRows oracle rows
          (asciiLower (if format = "" then "json" else format))
          env.maxJsonRows env.maxCsvRows with
      | .ok r => .ok r
      | .error e => .error ⟨500, strExc e⟩ := by
  rw [pipeline_auth_ok env oracle hdr q cloud format hauth]
  rw [sqlqueryHandler_run env oracle q cloud format dbt hfmt hpool hacq]
  simp only [sqlqueryBody, hdq, hfetch]
  rw [if_neg (by decide)]

/-! ## C3 -/

/-- Counterexample to C3 as stated: with a CSV row cap of 1 and a true
result of 2 rows, the request succeeds with a CSV file response — which
carries no `truncated` flag at all, so the response does not report
`truncated = true` although the true row count exceeds the active format's
cap.  Only the JSON encoding reports the flag. -/
theorem trunc_flag_csv_counterexample :
    (sqlqueryPipeline ⟨[("db", DbType.postgresql)], "key", 10000, 1⟩
        ⟨true, "", .ok (), .ok [[("x", .vInt 1)], [("x", .vInt 2)]], true, "",
          "/tmp/r.csv", true⟩
        (some "Bearer key") "select 1" "db" "csv").result =
      .ok (.csvFile "/tmp/r.csv" "x\r\n1\r\n" CSV_FILENAME "text/csv") ∧
    reportsTrunc (.csvFile "/tmp/r.csv" "x\r\n1\r\n" CSV_FILENAME "text/csv") ≠
      some true ∧
    ([[(("x" : String), PyValue.vInt 1)], [("x", PyValue.vInt 2)]].length > 1) :=
  ⟨rfl, by simp [reportsTrunc], by decide⟩

/-- C3 as amended: for a data-returning statement, the JSON response
reports `truncated = true` exactly when the true row count exceeds the JSON
cap and returns the first `min(trueCount, cap)` rows in result order; the
CSV response renders the first `min(trueCount, cap)` rows of the result
(the capped prefix) but reports no `truncated` flag. -/
theorem row_caps_amended :
    (∀ (env : Env) (oracle : Oracle) (hdr : Option String)
        (q cloud format : String) (dbt : DbType) (rows : List Row)
        (js : List JsonValue),
      verify_api_key hdr env.apiKey = none →
      asciiLower (if format = "" then "json" else format) = "json" →
      env.pools.lookup cloud = some dbt →
      oracle.acquireOk = true →
      is_data_query q = true →
      oracle.fetchResult = .ok rows →
      encodeRows (rows.take env.maxJsonRows) = some (.jArr js) →
      (sqlqueryPipeline env oracle hdr q cloud format).result =
          .ok (.jsonResp (.jObj [("rows", .jArr js),
            ("truncated", .jBool (decide (rows.length > env.maxJsonRows)))])) ∧
        js.length = min rows.length env.maxJsonRows ∧
        reportsTrunc (.jsonResp (.jObj [("rows", .jArr js),
            ("truncated", .jBool (decide (rows.length > env.maxJsonRows)))])) =
          some (decide (rows.length > env.maxJsonRows))) ∧
    (∀ (env : Env) (oracle : Oracle) (hdr : Option String)
        (q cloud format : String) (dbt : DbType) (rows : List Row)
        (content : String),
      verify_api_key hdr env.apiKey = none →
      asciiLower (if format = "" then "json" else format) = "csv" →
      env.pools.lookup cloud = some dbt →
      oracle.acquireOk = true →
      is_data_query q = true →
      oracle.fetchResult = .ok rows →
      csvRender (rows.take env.maxCsvRows) = some content →
      oracle.tempWriteOk = true →
      (sqlqueryPipeline env oracle hdr q cloud format).result =
          .ok (.csvFile oracle.tempPath content CSV_FILENAME "text/csv") ∧
        reportsTrunc (.csvFile oracle.tempPath content CSV_FILENAME "text/csv") =
          none) := by
  constructor
  · intro env oracle hdr q cloud format dbt rows js hauth hfmtj hpool hacq hdq
      hfetch henc
    have hres := pipeline_data_result env oracle hdr q cloud format dbt rows
      hauth (Or.inl hfmtj) hpool hacq hdq hfetch
    rw [hfmtj, renderRows_json oracle rows env.maxJsonRows env.maxCsvRows js henc]
      at hres
    refine ⟨hres, ?_, rfl⟩
    rw [encodeRows_length (rows.take env.maxJsonRows) js henc, List.length_take,
      Nat.min_comm]
  · intro env oracle hdr q cloud format dbt rows content hauth hfmtc hpool hacq
      hdq hfetch hrender hwrite
    have hres := pipeline_data_result env oracle hdr q cloud format dbt rows
      hauth (Or.inr hfmtc) hpool hacq hdq hfetch
    rw [hfmtc, renderRows_csv oracle rows env.maxJsonRows env.maxCsvRows content
      hrender hwrite] at hres
    exact ⟨hres, rfl⟩

/-- Witness for the amended C3: a two-row result against a JSON cap of 1
returns one row with `truncated = true`, and against a CSV cap of 1 returns
a one-row CSV file with no flag. -/
theorem row_caps_amended_witness :
    ((sqlqueryPipeline ⟨[("db", DbType.postgresql)], "key", 1, 1000000⟩
        ⟨true, "", .ok (), .ok [[("x", .vInt 1)], [("x", .vInt 2)]], true, "",
          "/tmp/r.csv", true⟩
        (some "Bearer key") "select 1" "db" "json").result =
      .ok (.jsonResp (.jObj [("rows", .jArr [.jObj [("x", .jInt 1)]]),
        ("truncated", .jBool (decide
          (([[("x", PyValue.vInt 1)], [("x", PyValue.vInt 2)]] : List Row).length
            > 1)))]))) ∧
    ((sqlqueryPipeline ⟨[("db", DbType.postgresql)], "key", 10000, 1⟩
        ⟨true, "", .ok (), .ok [[("x", .vInt 1)], [("x", .vInt 2)]], true, "",
          "/tmp/r.csv", true⟩
        (some "Bearer key") "select 1" "db" "csv").result =
      .ok (.csvFile "/tmp/r.csv" "x\r\n1\r\n" CSV_FILENAME "text/csv")) :=
  ⟨(row_caps_amended.1 ⟨[("db", DbType.postgresql)], "key", 1, 1000000⟩
      ⟨true, "", .ok (), .ok [[("x", .vInt 1)], [("x", .vInt 2)]], true, "",
        "/tmp/r.csv", true⟩
      (some "Bearer key") "select 1" "db" "json" DbType.postgresql
      [[("x", .vInt 1)], [("x", .vInt 2)]] [.jObj [("x", .jInt 1)]]
      rfl rfl rfl rfl rfl rfl rfl).1,
   (row_caps_amended.2 ⟨[("db", DbType.postgresql)], "key", 10000, 1⟩
      ⟨true, "", .ok (), .ok [[("x", .vInt 1)], [("x", .vInt 2)]], true, "",
        "/tmp/r.csv", true⟩
      (some "Bearer key") "select 1" "db" "csv" DbType.postgresql
      [[("x", .vInt 1)], [("x", .vInt 2)]] "x\r\n1\r\n"
      rfl rfl rfl rfl rfl rfl rfl rfl).1⟩

/-! ## CSV writer lemmas -/

theorem csvQuoteField_plain (s : String)
    (h : s.toList.any csvSpecialChar = false) : csvQuoteField s = s := by
  unfold csvQuoteField
  rw [h]
  rfl

theorem csvRecord_plain (fields : List String)
    (hplain : ∀ f ∈ fields, f.toList.any csvSpecialChar = false)
    (hne : fields ≠ [""]) : csvRecord fields = joinWith "," fields := by
  unfold csvRecord
  rw [if_neg hne]
  have hmap : fields.map csvQuoteField = fields :=
    calc fields.map csvQuoteField
        = fields.map id :=
          List.map_congr_left (fun a ha => csvQuoteField_plain a (hplain a ha))
      _ = fields := List.map_id fields
  rw [hmap]

theorem writeRowFields_ok (fieldnames : List String) (r : Row)
    (hsub : ∀ kv ∈ r, kv.1 ∈ fieldnames)
    (hplain : ∀ f ∈ dictRowFields fieldnames r, f.toList.any csvSpecialChar = false)
    (hne : dictRowFields fieldnames r ≠ [""]) :
    writeRowFields fieldnames r =
      some (joinWith "," (dictRowFields fieldnames r)) := by
  unfold writeRowFields
  have hany : r.any (fun kv => !(fieldnames.contains kv.1)) = false := by
    rw [List.any_eq_false]
    intro kv hkv
    simpa using hsub kv hkv
  rw [hany, if_neg (by decide), csvRecord_plain (dictRowFields fieldnames r)
    hplain hne]

theorem csvRender_cons (r0 : Row) (rest : List Row)
    (hsub : ∀ r ∈ r0 :: rest, ∀ kv ∈ r, kv.1 ∈ r0.map Prod.fst)
    (hplain : ∀ r ∈ r0 :: rest,
      (∀ f ∈ dictRowFields (r0.map Prod.fst) r,
        f.toList.any csvSpecialChar = false) ∧
      dictRowFields (r0.map Prod.fst) r ≠ [""])
    (hhdr : (∀ k ∈ r0.map Prod.fst, k.toList.any csvSpecialChar = false) ∧
      r0.map Prod.fst ≠ [""]) :
    csvRender (r0 :: rest) =
      some (strJoin ((joinWith "," (r0.map Prod.fst) ::
        (r0 :: rest).map
          (fun r => joinWith "," (dictRowFields (r0.map Prod.fst) r))).map
        (fun l => l ++ "\r\n"))) := by
  simp only [csvRender]
  rw [mapMOpt_forall (writeRowFields (r0.map Prod.fst))
    (fun r => joinWith "," (dictRowFields (r0.map Prod.fst) r)) (r0 :: rest)
    (fun r hr => writeRowFields_ok (r0.map Prod.fst) r (hsub r hr)
      (hplain r hr).1 (hplain r hr).2)]
  rw [csvRecord_plain (r0.map Prod.fst) hhdr.1 hhdr.2]
  rfl

/-! ## C6 -/

/-- C6: for a data-returning CSV request (reaching the encoder with a held
connection and a successful temp-file write): an empty capped row sequence
yields a CSV file of zero bytes — no header line; a non-empty row sequence
of N rows within the cap, whose rows' keys all come from the first row's
key set (and whose rendered cells contain no delimiter, quote or newline
characters, so each record is one physical line, and no record is a lone
empty field), yields a body of exactly one header line holding the first
row's keys followed by N data lines in original row order, each line
`\r\n`-terminated. -/
theorem csv_body_layout :
    (∀ (env : Env) (oracle : Oracle) (hdr : Option String)
        (q cloud format : String) (dbt : DbType),
      verify_api_key hdr env.apiKey = none →
      asciiLower (if format = "" then "json" else format) = "csv" →
      env.pools.lookup cloud = some dbt →
      oracle.acquireOk = true →
      is_data_query q = true →
      oracle.fetchResult = .ok [] →
      oracle.tempWriteOk = true →
      (sqlqueryPipeline env oracle hdr q cloud format).result =
        .ok (.csvFile oracle.tempPath "" CSV_FILENAME "text/csv")) ∧
    (∀ (env : Env) (oracle : Oracle) (hdr : Option String)
        (q cloud format : String) (dbt : DbType) (r0 : Row) (rest : List Row),
      verify_api_key hdr env.apiKey = none →
      asciiLower (if format = "" then "json" else format) = "csv" →
      env.pools.lookup cloud = some dbt →
      oracle.acquireOk = true →
      is_data_query q = true →
      oracle.fetchResult = .ok (r0 :: rest) →
      oracle.tempWriteOk = true →
      (r0 :: rest).length ≤ env.maxCsvRows →
      (∀ r ∈ r0 :: rest, ∀ kv ∈ r, kv.1 ∈ r0.map Prod.fst) →
      (∀ r ∈ r0 :: rest,
        (∀ f ∈ dictRowFields (r0.map Prod.fst) r,
          f.toList.any csvSpecialChar = false) ∧
        dictRowFields (r0.map Prod.fst) r ≠ [""]) →
      ((∀ k ∈ r0.map Prod.fst, k.toList.any csvSpecialChar = false) ∧
        r0.map Prod.fst ≠ [""]) →
      (sqlqueryPipeline env oracle hdr q cloud format).result =
        .ok (.csvFile oracle.tempPath
          (strJoin ((joinWith "," (r0.map Prod.fst) ::
            (r0 :: rest).map
              (fun r => joinWith "," (dictRowFields (r0.map Prod.fst) r))).map
            (fun l => l ++ "\r\n")))
          CSV_FILENAME "text/csv")) := by
  constructor
  · intro env oracle hdr q cloud format dbt hauth hfmtc hpool hacq hdq hfetch
      hwrite
    have hres := pipeline_data_result env oracle hdr q cloud format dbt []
      hauth (Or.inr hfmtc) hpool hacq hdq hfetch
    rw [hfmtc, renderRows_csv oracle [] env.maxJsonRows env.maxCsvRows ""
      (by rw [List.take_nil]; rfl) hwrite] at hres
    exact hres
  · intro env oracle hdr q cloud format dbt r0 rest hauth hfmtc hpool hacq hdq
      hfetch hwrite hcap hsub hplain hhdr
    have hres := pipeline_data_result env oracle hdr q cloud format dbt
      (r0 :: rest) hauth (Or.inr hfmtc) hpool hacq hdq hfetch
    rw [hfmtc, renderRows_csv oracle (r0 :: rest) env.maxJsonRows env.maxCsvRows _
      (by rw [List.take_of_length_le hcap]
          exact csvRender_cons r0 rest hsub hplain hhdr) hwrite] at hres
    exact hres

/-- Witness for C6: the empty result gives a zero-byte body, and a two-row
single-column result gives `a\r\nx\r\ny\r\n` — one header line and two data
lines in order. -/
theorem csv_body_layout_witness :
    ((sqlqueryPipeline ⟨[("db", DbType.postgresql)], "key", 10000, 1000000⟩
        ⟨true, "", .ok (), .ok [], true, "", "/tmp/r.csv", true⟩
        (some "Bearer key") "select 1" "db" "csv").result =
      .ok (.csvFile "/tmp/r.csv" "" CSV_FILENAME "text/csv")) ∧
    ((sqlqueryPipeline ⟨[("db", DbType.postgresql)], "key", 10000, 1000000⟩
        ⟨true, "", .ok (),
          .ok [[("a", .vStr "x")], [("a", .vStr "y")]], true, "",
          "/tmp/r.csv", true⟩
        (some "Bearer key") "select 1" "db" "csv").result =
      .ok (.csvFile "/tmp/r.csv"
        (strJoin ((joinWith ","
            (([("a", PyValue.vStr "x")] : Row).map Prod.fst) ::
          ([[("a", PyValue.vStr "x")], [("a", PyValue.vStr "y")]] : List Row).map
            (fun r => joinWith ","
              (dictRowFields (([("a", PyValue.vStr "x")] : Row).map Prod.fst) r))).map
          (fun l => l ++ "\r\n")))
        CSV_FILENAME "text/csv")) :=
  ⟨csv_body_layout.1 ⟨[("db", DbType.postgresql)], "key", 10000, 1000000⟩
      ⟨true, "", .ok (), .ok [], true, "", "/tmp/r.csv", true⟩
      (some "Bearer key") "select 1" "db" "csv" DbType.postgresql
      rfl rfl rfl rfl rfl rfl rfl,
   csv_body_layout.2 ⟨[("db", DbType.postgresql)], "key", 10000, 1000000⟩
      ⟨true, "", .ok (),
        .ok [[("a", .vStr "x")], [("a", .vStr "y")]], true, "",
        "/tmp/r.csv", true⟩
      (some "Bearer key") "select 1" "db" "csv" DbType.postgresql
      [("a", .vStr "x")] [[("a", .vStr "y")]]
      rfl rfl rfl rfl rfl rfl rfl (by decide) (by decide) (by decide) (by decide)⟩

end SqlGateway
